import Mathlib

/-!
Shallow embedding of the Global Radar FastAPI backend (`backend_main.py`).

Every handler is stateless; the current wall-clock time (`datetime.utcnow()`)
is passed in explicitly as an argument.  Machine floats of the source are
modelled as exact rationals (ℚ): every numeric literal in the source
(`2.99`, `3.49`, `3.29`, `4.99`, `3.99`, `30`, `0.92`) is exactly
representable as a decimal, and the only numeric operation performed on a
parsed price is a comparison with `30`.  Rationals are always built with
`mkRat` from integer numerator and denominator, so that every definition
evaluates by kernel reduction.
-/

/-- Strip leading and trailing whitespace, as Python `float` does on its
string argument before parsing. -/
def stripWs (l : List Char) : List Char :=
  ((l.dropWhile Char.isWhitespace).reverse.dropWhile Char.isWhitespace).reverse

/-- Consume an optional leading sign; returns `(isNegative, rest)`. -/
def readSign : List Char → Bool × List Char
  | '+' :: r => (false, r)
  | '-' :: r => (true, r)
  | l => (false, l)

/-- Value of a list of decimal digit characters, most significant first. -/
def digitsVal (l : List Char) : Nat :=
  l.foldl (fun a c => 10 * a + (c.toNat - 48)) 0

/-- Exponent suffix of a float literal: optional sign then one or more
digits, consuming the whole remaining input.  `mNum / mDen` is the mantissa
value and `neg` its sign. -/
def parseExp (mNum mDen : Nat) (neg : Bool) (l : List Char) : Option ℚ :=
  let p := readSign l
  let ds := p.2.takeWhile Char.isDigit
  let rest := p.2.dropWhile Char.isDigit
  if ds.isEmpty ∨ ¬ rest.isEmpty then none
  else
    let e := digitsVal ds
    let n : Int := if neg then -(mNum : Int) else (mNum : Int)
    some (if p.1 then mkRat n (mDen * 10 ^ e) else mkRat (n * (10 : Int) ^ e) mDen)

/-- Python `float(s)` on a string argument, modelled over ℚ: optional
whitespace and sign, then a decimal literal `digits[.digits]` or `.digits`,
with an optional `e`/`E` exponent.  `inf`/`nan` and underscore digit
separators are outside the modelled fragment (no claim depends on them);
any other input that `float` rejects yields `none`, matching the
`ValueError` branch of the source. -/
def parseFloat (s : String) : Option ℚ :=
  let cs0 := stripWs s.data
  let p := readSign cs0
  let neg := p.1
  let ip := p.2.takeWhile Char.isDigit
  let cs1 := p.2.dropWhile Char.isDigit
  let q :=
    match cs1 with
    | '.' :: r => (r.takeWhile Char.isDigit, r.dropWhile Char.isDigit)
    | _ => (([] : List Char), cs1)
  if ip.isEmpty ∧ q.1.isEmpty then none
  else
    let mNum := digitsVal ip * 10 ^ q.1.length + digitsVal q.1
    let mDen := 10 ^ q.1.length
    match q.2 with
    | [] => some (mkRat (if neg then -(mNum : Int) else (mNum : Int)) mDen)
    | 'e' :: r => parseExp mNum mDen neg r
    | 'E' :: r => parseExp mNum mDen neg r
    | _ => none

/-- Dict lookup `base_rates.get(country, 3.99)` for
`base_rates = {"SK": 2.99, "CZ": 3.49, "PL": 3.29, "DE": 4.99}`
(each float written as an exact rational). -/
def base_rates_get (country : String) : ℚ :=
  if country = "SK" then mkRat 299 100
  else if country = "CZ" then mkRat 349 100
  else if country = "PL" then mkRat 329 100
  else if country = "DE" then mkRat 499 100
  else mkRat 399 100

/-- Python `str(x)` for the floats occurring in the rate table: all five
values have exactly two decimal places, and `repr` of such a float is its
shortest decimal form `I.DD`. -/
def str2dp (q : ℚ) : String :=
  let c : Int := q.num * 100 / q.den
  toString (c / 100) ++ "." ++
    (let r := (c % 100).toNat
     (if r < 10 then "0" else "") ++ toString r)

/-- Function `estimate_shipping(price_str, country)` from `backend_main.py`:
`float(price_str or 0)` (an empty string is falsy, so it parses the int
`0`), `"FREE"` above 30, otherwise `str` of the table rate with default
`3.99`; a parse failure is caught by the bare `except` and mapped to
`"N/A"`. -/
def estimate_shipping (price_str : String) (country : String) : String :=
  match (if price_str = "" then some 0 else parseFloat price_str) with
  | none => "N/A"
  | some price =>
      if price > 30 then "FREE"
      else str2dp (base_rates_get country)

/-- Pydantic model `ProductData`, with its field defaults. -/
structure ProductData where
  shop : String
  productId : String := ""
  productUrl : String
  title : String := ""
  price : String := ""
  originalPrice : String := ""
  shipping : String := ""
  warehouse : String := "CN"
  imageUrl : String := ""
  specs : List (String × String) := []
  targetCountry : Option String := none
  scannedAt : Option String := none
deriving DecidableEq

/-- Pydantic model `ImageMatchRequest`. -/
structure ImageMatchRequest where
  imageUrl : String
  sourceShop : String
deriving DecidableEq

/-- The `shipping_prices` dict built in `scan_product`: one entry per
country, in source order SK, CZ, PL, DE. -/
structure ShipTable where
  SK : String
  CZ : String
  PL : String
  DE : String
deriving DecidableEq

/-- Lookup `shipping_prices.get(c)` on the four-key dict (no default):
`some` for the four known keys, `none` otherwise. -/
def tableGet (t : ShipTable) (c : String) : Option String :=
  if c = "SK" then some t.SK
  else if c = "CZ" then some t.CZ
  else if c = "PL" then some t.PL
  else if c = "DE" then some t.DE
  else none

/-- Response record of `POST /api/products/scan`. -/
structure ScanResponse where
  success : Bool
  productId : String
  receivedAt : String
  shipping : String
  allShipping : ShipTable
  specs : List (String × String)
  message : String
deriving DecidableEq

/-- Handler body of `scan_product`.  `now` stands for
`datetime.utcnow().isoformat()`.  The `shipping` field reproduces
`shipping_prices.get(data.targetCountry, "N/A") if data.targetCountry else
"N/A"`: both Python-falsy values of `targetCountry` (`None` and `""`)
short-circuit to `"N/A"`. -/
def scan_product (data : ProductData) (now : String) : ScanResponse :=
  let shipping_prices : ShipTable :=
    { SK := estimate_shipping data.price "SK"
      CZ := estimate_shipping data.price "CZ"
      PL := estimate_shipping data.price "PL"
      DE := estimate_shipping data.price "DE" }
  { success := true
    productId := data.productId
    receivedAt := now
    shipping :=
      match data.targetCountry with
      | none => "N/A"
      | some c => if c = "" then "N/A" else (tableGet shipping_prices c).getD "N/A"
    allShipping := shipping_prices
    specs := data.specs
    message := "Produkt zaznamenaný" }

/-- Little-endian decimal digits of `n`, with explicit fuel so that the
recursion is structural and kernel-reducible. -/
def toDigitsRev (fuel n : Nat) : List Nat :=
  match fuel with
  | 0 => []
  | fuel + 1 => if n = 0 then [] else n % 10 :: toDigitsRev fuel (n / 10)

/-- Decimal rendering of a nonnegative integer, as the f-string
`f"..._{int(...)}"` renders the truncated Unix timestamp. -/
def natRepr (n : Nat) : String :=
  if n = 0 then "0"
  else String.mk (((toDigitsRev n n).map Nat.digitChar).reverse)

/-- Response record of `POST /api/products/publish`. -/
structure PublishResponse where
  success : Bool
  id : String
  url : String
  publishedAt : String
  message : String
deriving DecidableEq

/-- Handler body of `publish_product`.  `ts` stands for
`int(datetime.utcnow().timestamp())` (whole seconds since the epoch,
nonnegative) and `now` for the second `datetime.utcnow().isoformat()`. -/
def publish_product (data : ProductData) (ts : Nat) (now : String) : PublishResponse :=
  let product_id := "gr_" ++ data.shop ++ "_" ++ data.productId ++ "_" ++ natRepr ts
  { success := true
    id := product_id
    url := "https://globalradar.eu/product/" ++ product_id
    publishedAt := now
    message := "Publikované v 4 jazykoch ✅" }

/-- One element of the `mock_matches` list.  `similarity` is the float
`0.92`, written as an exact rational. -/
structure MatchResult where
  shop : String
  title : String
  price : String
  imageUrl : String
  url : String
  similarity : ℚ
deriving DecidableEq

/-- Response record of `POST /api/products/match-image`.  The former field
is the `success` flag; `matches'` models the `matches` list of the JSON
response (`matches` is a reserved word in Lean). -/
structure MatchResponse where
  success : Bool
  matches' : List MatchResult
deriving DecidableEq

/-- Handler body of `match_image`: a single mock match whose `shop` toggles
on `sourceShop == "aliexpress"` and whose `imageUrl` echoes the request. -/
def match_image (request : ImageMatchRequest) : MatchResponse :=
  { success := true
    matches' :=
      [{ shop := if request.sourceShop = "aliexpress" then "temu" else "aliexpress"
         title := "Podobný produkt (mock)"
         price := "9.99"
         imageUrl := request.imageUrl
         url := "https://www.temu.com/example"
         similarity := mkRat 92 100 }] }

/-- Dependency `verify_key`: `x_api_key` is the request header value after
FastAPI's `Header(default="")` substitution (an absent header becomes `""`);
`apiKey` is the process-configured `API_KEY`.  Raises 401 exactly when
`x_api_key != API_KEY and API_KEY != "gr_dev_key"`. -/
def verify_key (apiKey x_api_key : String) : Except String String :=
  if x_api_key ≠ apiKey ∧ apiKey ≠ "gr_dev_key" then Except.error "Neplatný API kľúč"
  else Except.ok x_api_key

/-- FastAPI `Header(default="")` applied to an optional raw header. -/
def headerValue (h : Option String) : String := h.getD ""

/-- The scan endpoint as FastAPI runs it: the `Depends(verify_key)`
pre-check runs first, and the handler body touches `data` only after the
check succeeds. -/
def scan_endpoint (apiKey x_api_key : String) (data : ProductData) (now : String) :
    Except String ScanResponse :=
  match verify_key apiKey x_api_key with
  | Except.error e => Except.error e
  | Except.ok _ => Except.ok (scan_product data now)

example : parseFloat "25" = some (mkRat 25 1) := by decide
example : parseFloat "" = none := by decide
example : parseFloat "abc" = none := by decide
example : parseFloat "31.5" = some (mkRat 63 2) := by decide
example : parseFloat "-4" = some (mkRat (-4) 1) := by decide
example : parseFloat " 25 " = some (mkRat 25 1) := by decide
example : parseFloat "2e1" = some (mkRat 20 1) := by decide
example : estimate_shipping "50" "SK" = "FREE" := by decide
example : estimate_shipping "25" "DE" = "4.99" := by decide
example : estimate_shipping "" "CZ" = "3.49" := by decide
example : estimate_shipping "abc" "PL" = "N/A" := by decide
example : estimate_shipping "10" "XX" = "3.99" := by decide
example : natRepr 0 = "0" := by decide
example : natRepr 1730000000 = "1730000000" := by decide

/-! ## Helper lemmas -/

/-- Rendering of each table rate: evaluating `str2dp` on the five possible
results of `base_rates_get` yields the decimal strings of the source. -/
theorem rate_string (c : String) :
    str2dp (base_rates_get c) =
      if c = "SK" then "2.99"
      else if c = "CZ" then "3.49"
      else if c = "PL" then "3.29"
      else if c = "DE" then "4.99"
      else "3.99" := by
  unfold base_rates_get
  split_ifs <;> decide

/-- An empty price string never parses. -/
theorem parseFloat_empty : parseFloat "" = none := by decide

/-- Every digit produced by `toDigitsRev` is below 10. -/
theorem toDigitsRev_lt_ten (fuel : Nat) :
    ∀ n, ∀ d ∈ toDigitsRev fuel n, d < 10 := by
  induction fuel with
  | zero => intro n d h; simp [toDigitsRev] at h
  | succ f ih =>
      intro n d h
      by_cases hn : n = 0
      · simp [toDigitsRev, hn] at h
      · rw [toDigitsRev, if_neg hn] at h
        rcases List.mem_cons.mp h with h | h
        · omega
        · exact ih (n / 10) d h

/-- Little-endian value of a digit list. -/
def valLE (l : List Nat) : Nat := l.foldr (fun d a => d + 10 * a) 0

/-- With enough fuel, `toDigitsRev` is a faithful digit expansion. -/
theorem valLE_toDigitsRev (fuel : Nat) :
    ∀ n, n ≤ fuel → valLE (toDigitsRev fuel n) = n := by
  induction fuel with
  | zero => intro n h; have : n = 0 := by omega
            subst this; rfl
  | succ f ih =>
      intro n h
      by_cases hn : n = 0
      · subst hn; rfl
      · rw [toDigitsRev, if_neg hn]
        show n % 10 + 10 * valLE (toDigitsRev f (n / 10)) = n
        have hdiv : n / 10 ≤ f := by
          have := Nat.div_lt_self (Nat.pos_of_ne_zero hn) (by norm_num : 1 < 10)
          omega
        rw [ih (n / 10) hdiv]
        omega

/-- Reading a digit character back gives the digit. -/
theorem digitChar_inv : ∀ d, d < 10 → (Nat.digitChar d).toNat - 48 = d := by decide

/-- Reading back the rendered digit string recovers the little-endian value. -/
theorem digitsVal_rev_map (l : List Nat) (h : ∀ d ∈ l, d < 10) :
    digitsVal ((l.map Nat.digitChar).reverse) = valLE l := by
  induction l with
  | nil => rfl
  | cons d t ih =>
      have hd : d < 10 := h d (List.mem_cons_self d t)
      have ht : ∀ x ∈ t, x < 10 := fun x hx => h x (List.mem_cons_of_mem d hx)
      rw [List.map_cons, List.reverse_cons]
      unfold digitsVal
      rw [List.foldl_append]
      show 10 * digitsVal ((t.map Nat.digitChar).reverse) + ((Nat.digitChar d).toNat - 48)
        = valLE (d :: t)
      rw [ih ht, digitChar_inv d hd]
      show 10 * valLE t + d = d + 10 * valLE t
      omega

/-- Round trip: reading the decimal rendering of `n` recovers `n`. -/
theorem digitsVal_natRepr (n : Nat) : digitsVal (natRepr n).data = n := by
  by_cases hn : n = 0
  · subst hn; rfl
  · unfold natRepr
    rw [if_neg hn]
    show digitsVal (((toDigitsRev n n).map Nat.digitChar).reverse) = n
    rw [digitsVal_rev_map _ (toDigitsRev_lt_ten n n)]
    exact valLE_toDigitsRev n n (Nat.le_refl n)

/-- The decimal rendering is injective, already at the level of the
underlying character lists. -/
theorem natRepr_data_inj {m n : Nat} (h : (natRepr m).data = (natRepr n).data) :
    m = n := by
  have h2 := congrArg digitsVal h
  rwa [digitsVal_natRepr, digitsVal_natRepr] at h2

/-! ## Claims -/

/-- C1: for every price string that parses as a number strictly greater
than 30, `estimate_shipping` returns `"FREE"` for every destination
country code, known or unknown. -/
theorem estimate_shipping_free_above_thirty (s : String) (q : ℚ) (c : String)
    (hp : parseFloat s = some q) (hq : 30 < q) :
    estimate_shipping s c = "FREE" := by
  unfold estimate_shipping
  by_cases hs : s = ""
  · rw [hs, parseFloat_empty] at hp; cases hp
  · rw [if_neg hs, hp]
    show (if q > 30 then "FREE" else str2dp (base_rates_get c)) = "FREE"
    rw [if_pos hq]

/-- Witness for C1 at price `"50"`, destination `"SK"`. -/
theorem estimate_shipping_free_above_thirty_witness :
    parseFloat "50" = some (mkRat 50 1) ∧ estimate_shipping "50" "SK" = "FREE" :=
  ⟨by decide,
   estimate_shipping_free_above_thirty "50" (mkRat 50 1) "SK" (by decide) (by decide)⟩

/-- C2: for every price string that parses as a number at most 30 — the
empty price included, which the source coerces to zero — the estimate is
the per-country flat-rate string: SK ↦ 2.99, CZ ↦ 3.49, PL ↦ 3.29,
DE ↦ 4.99, and 3.99 for every other destination code. -/
theorem estimate_shipping_flat_rate (s : String) (q : ℚ) (c : String)
    (hp : s = "" ∧ q = 0 ∨ parseFloat s = some q) (hq : q ≤ 30) :
    estimate_shipping s c =
      if c = "SK" then "2.99"
      else if c = "CZ" then "3.49"
      else if c = "PL" then "3.29"
      else if c = "DE" then "4.99"
      else "3.99" := by
  rw [← rate_string c]
  unfold estimate_shipping
  by_cases hs : s = ""
  · rw [if_pos hs]
    show (if (0 : ℚ) > 30 then "FREE" else str2dp (base_rates_get c)) = _
    rw [if_neg (by decide : ¬ (0 : ℚ) > 30)]
  · rcases hp with ⟨hs', _⟩ | hp
    · exact absurd hs' hs
    · rw [if_neg hs, hp]
      show (if q > 30 then "FREE" else str2dp (base_rates_get c)) = _
      rw [if_neg (not_lt.mpr hq)]

/-- Witness for C2 at price `"25"`, destination `"DE"`, and at the empty
price with an unknown destination. -/
theorem estimate_shipping_flat_rate_witness :
    estimate_shipping "25" "DE" = "4.99" ∧ estimate_shipping "" "XX" = "3.99" := by
  constructor
  · rw [estimate_shipping_flat_rate "25" (mkRat 25 1) "DE" (Or.inr (by decide)) (by decide)]
    decide
  · rw [estimate_shipping_flat_rate "" 0 "XX" (Or.inl ⟨rfl, rfl⟩) (by decide)]
    decide

/-- C3: a nonempty price string that does not parse as a number yields the
sentinel `"N/A"` for every destination code; the embedding is a total
function, so the `except` branch never lets an exception reach the
caller. -/
theorem estimate_shipping_nonnumeric (s c : String) (hs : s ≠ "")
    (hp : parseFloat s = none) :
    estimate_shipping s c = "N/A" := by
  unfold estimate_shipping
  rw [if_neg hs, hp]

/-- Witness for C3 at price `"abc"`, destination `"SK"`. -/
theorem estimate_shipping_nonnumeric_witness :
    parseFloat "abc" = none ∧ estimate_shipping "abc" "SK" = "N/A" :=
  ⟨by decide, estimate_shipping_nonnumeric "abc" "SK" (by decide) (by decide)⟩

/-- C4: with the secret left at the default placeholder `"gr_dev_key"`,
`verify_key` accepts every credential (the empty one included); with any
other secret it errors exactly when the credential differs from the
secret, and on an error the gated endpoint returns the error without
processing the request body. -/
theorem verify_key_policy (apiKey x : String) :
    (apiKey = "gr_dev_key" → verify_key apiKey x = Except.ok x)
    ∧ (apiKey ≠ "gr_dev_key" →
        (verify_key apiKey x = Except.error "Neplatný API kľúč" ↔ x ≠ apiKey))
    ∧ (∀ e, verify_key apiKey x = Except.error e →
        ∀ data data' now now',
          scan_endpoint apiKey x data now = Except.error e ∧
          scan_endpoint apiKey x data now = scan_endpoint apiKey x data' now') := by
  refine ⟨?_, ?_, ?_⟩
  · intro h
    unfold verify_key
    rw [if_neg]
    intro hc
    exact hc.2 h
  · intro h
    unfold verify_key
    constructor
    · intro he
      by_cases hx : x = apiKey
      · rw [if_neg (fun hc => hc.1 hx)] at he
        cases he
      · exact hx
    · intro hx
      rw [if_pos ⟨hx, h⟩]
  · intro e he data data' now now'
    unfold scan_endpoint
    rw [he]
    exact ⟨rfl, rfl⟩

/-- Witness for C4: the default secret accepts an empty credential, and
the secret `"secret"` rejects the credential `"wrong"` without the scan
body being processed. -/
theorem verify_key_policy_witness :
    verify_key "gr_dev_key" "" = Except.ok ""
    ∧ verify_key "secret" "wrong" = Except.error "Neplatný API kľúč"
    ∧ scan_endpoint "secret" "wrong" { shop := "temu", productUrl := "u" } "t"
        = Except.error "Neplatný API kľúč" :=
  ⟨(verify_key_policy "gr_dev_key" "").1 rfl,
   ((verify_key_policy "secret" "wrong").2.1 (by decide)).mpr (by decide),
   (((verify_key_policy "secret" "wrong").2.2 "Neplatný API kľúč"
      (((verify_key_policy "secret" "wrong").2.1 (by decide)).mpr (by decide))
      { shop := "temu", productUrl := "u" } { shop := "temu", productUrl := "u" }
      "t" "t").1)⟩

/-- C9: with the configured secret set to the empty string — which differs
from the default placeholder, so enforcement is nominally active — a
request with no credential header at all is accepted, because
`Header(default="")` turns the absent header into `""`, which equals the
secret. -/
theorem verify_key_empty_secret_accepts_missing_header :
    ("" : String) ≠ "gr_dev_key"
    ∧ verify_key "" (headerValue none) = Except.ok "" := ⟨by decide, rfl⟩

/-- C5: the scan handler always succeeds, echoes `productId` and `specs`,
returns the four-country table computed by the estimator, and sets the
`shipping` field to the table entry of the target country, falling back to
`"N/A"` when the target country is absent or not one of the four codes. -/
theorem scan_product_contract (data : ProductData) (now : String) :
    (scan_product data now).success = true
    ∧ (scan_product data now).productId = data.productId
    ∧ (scan_product data now).specs = data.specs
    ∧ (scan_product data now).allShipping =
        { SK := estimate_shipping data.price "SK"
          CZ := estimate_shipping data.price "CZ"
          PL := estimate_shipping data.price "PL"
          DE := estimate_shipping data.price "DE" }
    ∧ (data.targetCountry = none → (scan_product data now).shipping = "N/A")
    ∧ (∀ c, data.targetCountry = some c →
        (scan_product data now).shipping =
          if c = "SK" then estimate_shipping data.price "SK"
          else if c = "CZ" then estimate_shipping data.price "CZ"
          else if c = "PL" then estimate_shipping data.price "PL"
          else if c = "DE" then estimate_shipping data.price "DE"
          else "N/A") := by
  refine ⟨rfl, rfl, rfl, rfl, ?_, ?_⟩
  · intro h
    simp [scan_product, h]
  · intro c h
    simp only [scan_product, h]
    by_cases h0 : c = ""
    · subst h0
      simp
    · rw [if_neg h0]
      unfold tableGet
      split_ifs <;> rfl

/-- Witness for C5: the spec scenario price `"25"`, target country `"DE"`
yields the shipping estimate `"4.99"`. -/
theorem scan_product_contract_witness :
    (scan_product
        { shop := "temu", productUrl := "u", price := "25", targetCountry := some "DE" }
        "t").shipping = "4.99" := by
  rw [(scan_product_contract
        { shop := "temu", productUrl := "u", price := "25", targetCountry := some "DE" }
        "t").2.2.2.2.2 "DE" rfl]
  decide

/-- C6: for a fixed shop and product id, two publish calls in the same
integer second produce the same identifier, and two publish calls in
different integer seconds produce different identifiers. -/
theorem publish_id_per_second (d1 d2 : ProductData) (t1 t2 : Nat) (n1 n2 : String)
    (hshop : d1.shop = d2.shop) (hpid : d1.productId = d2.productId) :
    (t1 = t2 → (publish_product d1 t1 n1).id = (publish_product d2 t2 n2).id)
    ∧ (t1 ≠ t2 → (publish_product d1 t1 n1).id ≠ (publish_product d2 t2 n2).id) := by
  constructor
  · intro h
    show "gr_" ++ d1.shop ++ "_" ++ d1.productId ++ "_" ++ natRepr t1
      = "gr_" ++ d2.shop ++ "_" ++ d2.productId ++ "_" ++ natRepr t2
    rw [hshop, hpid, h]
  · intro hne heq
    apply hne
    have heq' : "gr_" ++ d1.shop ++ "_" ++ d1.productId ++ "_" ++ natRepr t1
        = "gr_" ++ d2.shop ++ "_" ++ d2.productId ++ "_" ++ natRepr t2 := heq
    rw [hshop, hpid] at heq'
    have hdata := congrArg String.data heq'
    simp only [String.data_append] at hdata
    exact natRepr_data_inj (List.append_cancel_left hdata)

/-- Witness for C6 with shop `"temu"`, product id `"123"`: equal at the
shared second 5, distinct across seconds 1 and 2. -/
theorem publish_id_per_second_witness :
    (publish_product { shop := "temu", productId := "123", productUrl := "u" } 5 "a").id
      = (publish_product { shop := "temu", productId := "123", productUrl := "u" } 5 "b").id
    ∧ (publish_product { shop := "temu", productId := "123", productUrl := "u" } 1 "a").id
      ≠ (publish_product { shop := "temu", productId := "123", productUrl := "u" } 2 "b").id :=
  ⟨(publish_id_per_second
      { shop := "temu", productId := "123", productUrl := "u" }
      { shop := "temu", productId := "123", productUrl := "u" } 5 5 "a" "b" rfl rfl).1 rfl,
   (publish_id_per_second
      { shop := "temu", productId := "123", productUrl := "u" }
      { shop := "temu", productId := "123", productUrl := "u" } 1 2 "a" "b" rfl rfl).2
      (by decide)⟩

/-- C7: the match-image handler always succeeds with a single-element
match list whose shop is `"temu"` when the source shop is `"aliexpress"`
and `"aliexpress"` otherwise. -/
theorem match_image_shop_toggle (q : ImageMatchRequest) :
    (match_image q).success = true
    ∧ (match_image q).matches'.length = 1
    ∧ (match_image q).matches'.map (fun m => m.shop)
        = [if q.sourceShop = "aliexpress" then "temu" else "aliexpress"] :=
  ⟨rfl, rfl, rfl⟩

/-- Counterexample to C8 as stated: two queries that differ only in
`imageUrl` produce match lists that agree on the shop field yet are not
identical, because the result's `imageUrl` field echoes the query. -/
theorem match_image_not_all_constant :
    ((match_image { imageUrl := "http://a", sourceShop := "shein" }).matches'.map
        (fun m => m.shop)
      = (match_image { imageUrl := "http://b", sourceShop := "shein" }).matches'.map
        (fun m => m.shop))
    ∧ (match_image { imageUrl := "http://a", sourceShop := "shein" }).matches'
        ≠ (match_image { imageUrl := "http://b", sourceShop := "shein" }).matches' :=
  ⟨rfl, by decide⟩

/-- C8 (amended): in the returned match, title, price, target URL and
similarity score are fixed constants independent of the query, while the
`imageUrl` field echoes the query's `imageUrl`. -/
theorem match_image_fixed_fields (q : ImageMatchRequest) :
    (match_image q).matches'.map (fun m => (m.title, m.price, m.url, m.similarity))
      = [("Podobný produkt (mock)", "9.99", "https://www.temu.com/example", mkRat 92 100)]
    ∧ (match_image q).matches'.map (fun m => m.imageUrl) = [q.imageUrl] :=
  ⟨rfl, rfl⟩

/-- C10: the publish identifier is not injective in the
`(shop, productId)` pair: the separator `"_"` also occurs inside field
values, so `("a_b", "c")` and `("a", "b_c")` collide at any shared
timestamp (here second 0). -/
theorem publish_id_separator_collision :
    (publish_product { shop := "a_b", productId := "c", productUrl := "u" } 0 "t").id
      = (publish_product { shop := "a", productId := "b_c", productUrl := "u" } 0 "t").id
    ∧ (("a_b", "c") : String × String) ≠ ("a", "b_c") :=
  ⟨by decide, by decide⟩
